import Mathlib

/-
  Verification development for the SEPA screening & scoring engine
  (utils/score_calculator.py, utils/pattern_analyzer.py, utils/stock_data.py,
  utils/financial_data.py, utils/screener.py).

  Modelling conventions:
  * Python floats are embedded as exact rationals (ℚ); numeric literals such
    as 1.5 or 0.8 denote the exact decimal value.
  * Python `round(x, 1)` (round half to even) is embedded as `pyRound1`.
  * A pandas value that can be NaN is embedded as `Option ℚ` (none = NaN).
  * A Python dict is embedded as a structure of `Option` fields: `none`
    means the key is absent, `some v` means the key is present with value v.
-/

namespace Screener

/-- Python `round` to the nearest integer, ties to even (banker's rounding). -/
def roundHalfEven (q : ℚ) : ℤ :=
  if q - (⌊q⌋ : ℚ) < 1/2 then ⌊q⌋
  else if 1/2 < q - (⌊q⌋ : ℚ) then ⌊q⌋ + 1
  else if Even ⌊q⌋ then ⌊q⌋ else ⌊q⌋ + 1

/-- Python `round(x, 1)`: one decimal digit, ties to even. -/
def pyRound1 (q : ℚ) : ℚ :=
  (roundHalfEven (10 * q) : ℚ) / 10

/-- If q ≤ n (an integer bound) then rounding cannot exceed n. -/
theorem roundHalfEven_le {q : ℚ} {n : ℤ} (h : q ≤ (n : ℚ)) : roundHalfEven q ≤ n := by
  unfold roundHalfEven
  have hfl : ⌊q⌋ ≤ n := Int.floor_le_floor h |>.trans_eq (Int.floor_intCast n)
  split_ifs with h1 h2 h3
  · exact hfl
  · -- fractional part exceeds 1/2, so ⌊q⌋ < n
    rcases lt_or_eq_of_le hfl with hlt | heq
    · omega
    · exfalso
      have : q - (⌊q⌋ : ℚ) ≤ 0 := by
        rw [heq]; linarith
      linarith
  · exact hfl
  · -- tie at 1/2 with odd floor, so ⌊q⌋ < n
    rcases lt_or_eq_of_le hfl with hlt | heq
    · omega
    · exfalso
      have hr : q - (⌊q⌋ : ℚ) = 1/2 := le_antisymm (not_lt.mp h2) (not_lt.mp h1)
      have : q - (⌊q⌋ : ℚ) ≤ 0 := by
        rw [heq]; linarith
      linarith

/-- If n ≤ q (an integer bound) then rounding stays at least n. -/
theorem le_roundHalfEven {q : ℚ} {n : ℤ} (h : (n : ℚ) ≤ q) : n ≤ roundHalfEven q := by
  unfold roundHalfEven
  have hfl : n ≤ ⌊q⌋ := Int.le_floor.mpr h
  split_ifs <;> omega

theorem pyRound1_le {q : ℚ} {n : ℤ} (h : q ≤ (n : ℚ)) : pyRound1 q ≤ (n : ℚ) := by
  unfold pyRound1
  have h10 : 10 * q ≤ ((10 * n : ℤ) : ℚ) := by push_cast; linarith
  have := roundHalfEven_le h10
  rw [div_le_iff₀ (by norm_num : (0:ℚ) < 10)]
  calc (roundHalfEven (10 * q) : ℚ) ≤ ((10 * n : ℤ) : ℚ) := by exact_mod_cast this
    _ = (n : ℚ) * 10 := by push_cast; ring

theorem le_pyRound1 {q : ℚ} {n : ℤ} (h : (n : ℚ) ≤ q) : (n : ℚ) ≤ pyRound1 q := by
  unfold pyRound1
  have h10 : ((10 * n : ℤ) : ℚ) ≤ 10 * q := by push_cast; linarith
  have := le_roundHalfEven h10
  rw [le_div_iff₀ (by norm_num : (0:ℚ) < 10)]
  calc (n : ℚ) * 10 = ((10 * n : ℤ) : ℚ) := by push_cast; ring
    _ ≤ (roundHalfEven (10 * q) : ℚ) := by exact_mod_cast this

theorem pyRound1_nonneg {q : ℚ} (h : 0 ≤ q) : 0 ≤ pyRound1 q := by
  have := le_pyRound1 (n := 0) (by exact_mod_cast h)
  simpa using this

/-- ScoreCalculator.calculate_total_score: raw sum of the five sub-scores
    (max 112) rescaled to 0–100, rounded to one decimal, clamped to 100. -/
def calculate_total_score (trend_score pattern_score rs_score fundamental_score investor_score : ℚ) : ℚ :=
  let raw_total := trend_score + pattern_score + rs_score + fundamental_score + investor_score
  min (pyRound1 (raw_total / 112 * 100)) 100

/-- ScoreCalculator.calculate_pattern_score: fixed weights vcp 8 / pivot 7 /
    breakout 5, summed over the fired signals, rounded to one decimal.
    Each argument is a detector result (found flag, evidence keys). -/
def calculate_pattern_score (vcp_result pivot_result breakout_result : Bool × List String) : ℚ :=
  pyRound1 ((if vcp_result.1 then 8 else 0) + (if pivot_result.1 then 7 else 0) +
    (if breakout_result.1 then 5 else 0))

/-- Investor-flow dict consumed by ScoreCalculator.calculate_investor_score.
    `none` fields are absent keys (the corresponding .get defaults to 0). -/
structure InvestorDict where
  data_source : Option String := none
  foreign_net_buy : Option ℚ := none
  foreign_ratio : Option ℚ := none
  institution_net_buy : Option ℚ := none
  institution_ratio : Option ℚ := none
  net_buy_days : Option ℚ := none
  foreign_buy_days : Option ℚ := none
  institution_buy_days : Option ℚ := none
  short_selling_ratio : Option ℚ := none
  short_selling_volume : Option ℚ := none
  short_selling_balance : Option ℚ := none
  short_selling_days : Option ℚ := none
deriving DecidableEq

/-- Foreign net-buy points of calculate_investor_score (max 4). -/
def investor_foreign_pts (d : InvestorDict) : ℚ :=
  if d.foreign_net_buy.getD 0 > 0 then
    if d.foreign_ratio.getD 0 ≥ 5 then 4
    else if d.foreign_ratio.getD 0 ≥ 2 then 3
    else if d.foreign_ratio.getD 0 ≥ 1 then 2
    else if d.foreign_ratio.getD 0 > 0 then 1
    else 0
  else 0

/-- Institution net-buy points of calculate_investor_score (max 4). -/
def investor_institution_pts (d : InvestorDict) : ℚ :=
  if d.institution_net_buy.getD 0 > 0 then
    if d.institution_ratio.getD 0 ≥ 3 then 4
    else if d.institution_ratio.getD 0 ≥ 1.5 then 3
    else if d.institution_ratio.getD 0 ≥ 0.5 then 2
    else if d.institution_ratio.getD 0 > 0 then 1
    else 0
  else 0

/-- Consecutive net-buy-day points of calculate_investor_score (max 2,
    including the foreign-and-institution bonus capped at 2). -/
def investor_consecutive_pts (d : InvestorDict) : ℚ :=
  let consecutive0 : ℚ :=
    if d.net_buy_days.getD 0 ≥ 15 then 2
    else if d.net_buy_days.getD 0 ≥ 10 then 1.5
    else if d.net_buy_days.getD 0 ≥ 5 then 1
    else if d.net_buy_days.getD 0 ≥ 3 then 0.5
    else 0
  if d.foreign_buy_days.getD 0 ≥ 3 ∧ d.institution_buy_days.getD 0 ≥ 3 then
    min (consecutive0 + 0.5) 2
  else consecutive0

/-- Short-interest points of calculate_investor_score (max 2, inverse
    tiers of the short-selling ratio, which defaults to 0 when absent). -/
def investor_short_pts (d : InvestorDict) : ℚ :=
  if d.short_selling_ratio.getD 0 ≤ 1 then 2
  else if d.short_selling_ratio.getD 0 ≤ 3 then 1.5
  else if d.short_selling_ratio.getD 0 ≤ 5 then 1
  else if d.short_selling_ratio.getD 0 ≤ 10 then 0.5
  else 0

/-- ScoreCalculator.calculate_investor_score (score component only; the
    details dict of the source is not modelled).  `none` input is a falsy
    (None / empty) investor_data dict; a 'default' data_source short-circuits
    to 0.0 (collection failure). -/
def calculate_investor_score (investor_data : Option InvestorDict) : ℚ :=
  match investor_data with
  | none => 0
  | some d =>
    if d.data_source.getD "unknown" = "default" then 0
    else
      min (pyRound1 (investor_foreign_pts d + investor_institution_pts d +
        investor_consecutive_pts d + investor_short_pts d)) 12

/-- Financial-data dict consumed by calculate_fundamental_score and produced
    by the FinancialDataCollector fallback chain.  `none` = key absent. -/
structure FinDict where
  source : Option String := none
  data_source : Option String := none
  roe : Option ℚ := none
  per : Option ℚ := none
  pbr : Option ℚ := none
  eps : Option ℚ := none
  bps : Option ℚ := none
  debt_ratio : Option ℚ := none
  operating_margin : Option ℚ := none
  net_margin : Option ℚ := none
  revenue_yoy : Option ℚ := none
  operating_profit_yoy : Option ℚ := none
  net_income_yoy : Option ℚ := none
  sales_yoy : Option ℚ := none
  op_income_yoy : Option ℚ := none
  sales_qoq : Option ℚ := none
  op_income_qoq : Option ℚ := none
  net_income_qoq : Option ℚ := none
  dividend_yield : Option ℚ := none
deriving DecidableEq

/-- ROE points on the 12-point scale of the f_data_fundamental branch. -/
def roe_score12 (roe : ℚ) : ℚ :=
  min (if roe ≥ 15 then 12 else if roe ≥ 10 then 8 else if roe ≥ 5 then 4
       else if roe > 0 then roe * 0.8 else 0) 12

/-- PER points on the 9-point scale of the f_data_fundamental branch. -/
def per_score9 (per : ℚ) : ℚ :=
  if 0 < per ∧ per ≤ 10 then 9 else if 10 < per ∧ per ≤ 15 then 6
  else if 15 < per ∧ per ≤ 25 then 3 else if per > 25 then 1 else 0

/-- PBR points on the 9-point scale of the f_data_fundamental branch. -/
def pbr_score9 (pbr : ℚ) : ℚ :=
  if 0 < pbr ∧ pbr ≤ 1 then 9 else if 1 < pbr ∧ pbr ≤ 1.5 then 6
  else if 1.5 < pbr ∧ pbr ≤ 3 then 3 else if pbr > 3 then 1 else 0

/-- ROE points on the 8-point scale (f_data_financial branch and full rubric). -/
def roe_score8 (roe : ℚ) : ℚ :=
  min (if roe ≥ 15 then 8 else if roe ≥ 10 then 6 else if roe ≥ 5 then 4
       else if roe > 0 then roe * 0.8 else 0) 8

/-- Operating-margin points (7-point scale). -/
def op_margin_score7 (m : ℚ) : ℚ :=
  min (if m ≥ 10 then 7 else if m ≥ 5 then 5 else if m ≥ 2 then 3
       else if m > 0 then m * 1.5 else 0) 7

/-- Revenue-growth points (7-point scale, f_data_financial branch). -/
def revenue_growth_score7 (g : ℚ) : ℚ :=
  min (if g ≥ 20 then 7 else if g ≥ 10 then 5 else if g ≥ 5 then 3
       else if g > 0 then g * 0.6 else 0) 7

/-- Operating-profit-growth points (6-point scale, f_data_financial branch). -/
def op_growth_score6 (g : ℚ) : ℚ :=
  min (if g ≥ 25 then 6 else if g ≥ 15 then 4 else if g ≥ 5 then 2
       else if g > 0 then g * 0.4 else 0) 6

/-- Debt-ratio points (2-point scale). -/
def debt_score2 (d : ℚ) : ℚ :=
  if d ≤ 30 then 2 else if d ≤ 50 then 1.5 else if d ≤ 100 then 1
  else if d ≤ 200 then 0.5 else 0

/-- Full-rubric YoY sales-growth points (5-point portion). -/
def sales_yoy_score5 (g : ℚ) : ℚ :=
  if g ≥ 20 then 5 else if g ≥ 10 then 4 else if g ≥ 5 then 3
  else if g > 0 then g * 0.6 else 0

/-- Full-rubric QoQ sales-growth points (2-point portion). -/
def sales_qoq_score2 (g : ℚ) : ℚ :=
  if g ≥ 10 then 2 else if g ≥ 5 then 1.5 else if g > 0 then g * 0.3 else 0

/-- Full-rubric YoY operating-profit-growth points (4-point portion). -/
def op_yoy_score4 (g : ℚ) : ℚ :=
  if g ≥ 25 then 4 else if g ≥ 15 then 3 else if g ≥ 5 then 2
  else if g > 0 then g * 0.4 else 0

/-- Full-rubric QoQ operating-profit-growth points (2-point portion). -/
def op_qoq_score2 (g : ℚ) : ℚ :=
  if g ≥ 15 then 2 else if g ≥ 5 then 1 else if g > 0 then g * 0.2 else 0

/-- Valuation-rubric PER points (12-point scale). -/
def per_score12 (per : ℚ) : ℚ :=
  if 0 < per ∧ per ≤ 10 then 12 else if 10 < per ∧ per ≤ 15 then 8
  else if 15 < per ∧ per ≤ 25 then 4 else if per > 25 then 1 else 0

/-- Valuation-rubric PBR points (12-point scale). -/
def pbr_score12 (pbr : ℚ) : ℚ :=
  if 0 < pbr ∧ pbr ≤ 1 then 12 else if 1 < pbr ∧ pbr ≤ 1.5 then 8
  else if 1.5 < pbr ∧ pbr ≤ 3 then 4 else if pbr > 3 then 1 else 0

/-- Valuation-rubric dividend-yield points (6-point scale). -/
def div_score6 (dy : ℚ) : ℚ :=
  if dy ≥ 4 then 6 else if dy ≥ 2 then 4 else if dy > 0 then dy * 2 else 0

/-- ScoreCalculator.calculate_fundamental_score.  Returns the final score and
    the data_source tag recorded in the details dict.  `none` input models a
    falsy (None / empty dict) financial_data argument; the unreachable
    duplicated `elif 'per' in ... or 'pbr' in ...` block of the source (lines
    722–775, dead code behind an identical condition) is not repeated. -/
def calculate_fundamental_score (financial_data : Option FinDict) : ℚ × String :=
  match financial_data with
  | none => (0, "none")
  | some d =>
    let data_source := d.source.getD (d.data_source.getD "unknown")
    let total_score : ℚ :=
      if data_source = "f_data_fundamental" then
        roe_score12 (d.roe.getD 0) + per_score9 (d.per.getD 0) + pbr_score9 (d.pbr.getD 0)
      else if data_source = "f_data_financial" then
        roe_score8 (d.roe.getD 0) + op_margin_score7 (d.operating_margin.getD 0) +
          revenue_growth_score7 (d.revenue_yoy.getD 0) +
          op_growth_score6 (d.operating_profit_yoy.getD 0) +
          debt_score2 (d.debt_ratio.getD 0)
      else if d.roe.isSome ∧ d.debt_ratio.isSome then
        roe_score8 (d.roe.getD 0) + op_margin_score7 (d.operating_margin.getD 0) +
          min (sales_yoy_score5 (d.sales_yoy.getD 0) + sales_qoq_score2 (d.sales_qoq.getD 0)) 7 +
          min (op_yoy_score4 (d.op_income_yoy.getD 0) + op_qoq_score2 (d.op_income_qoq.getD 0)) 6 +
          debt_score2 (d.debt_ratio.getD 0)
      else if d.per.isSome ∨ d.pbr.isSome then
        if d.per.getD 0 = 0 ∧ d.pbr.getD 0 = 0 ∧ d.dividend_yield.getD 0 = 0 then 5
        else
          per_score12 (d.per.getD 0) + pbr_score12 (d.pbr.getD 0) +
            div_score6 (d.dividend_yield.getD 0)
      else 3
    (min (pyRound1 total_score) 30, data_source)

/-- One row of a price DataFrame (columns Open/High/Low/Close/Volume). -/
structure PriceRow where
  Open : ℚ
  High : ℚ
  Low : ℚ
  Close : ℚ
  Volume : ℚ
deriving DecidableEq

/-- The trailing rolling window of width w ending at index i (pandas
    rolling semantics: at most w observations, fewer near the start). -/
def rollWindow (w : ℕ) (xs : List ℚ) (i : ℕ) : List ℚ :=
  (xs.take (i + 1)).drop (i + 1 - w)

/-- Arithmetic mean of a list (0 for the empty list, never hit on
    pandas windows which are nonempty). -/
def listMean (l : List ℚ) : ℚ := l.sum / l.length

/-- Mean over the present values, skipping NaN like pandas Series.mean;
    none when no value is present. -/
def listMeanSkipNa (l : List (Option ℚ)) : Option ℚ :=
  let vs := l.filterMap id
  if vs.isEmpty then none else some (listMean vs)

/-- Maximum of a nonempty list (0 for []). -/
def listMax : List ℚ → ℚ
  | [] => 0
  | a :: t => t.foldl max a

/-- Minimum of a nonempty list (0 for []). -/
def listMin : List ℚ → ℚ
  | [] => 0
  | a :: t => t.foldl min a

/-- Series.rolling(window=w, min_periods=1).mean(). -/
def rollingMean (w : ℕ) (xs : List ℚ) : List ℚ :=
  (List.range xs.length).map fun i => listMean (rollWindow w xs i)

/-- Series.rolling(window=w, min_periods=1).max(). -/
def rollingMax (w : ℕ) (xs : List ℚ) : List ℚ :=
  (List.range xs.length).map fun i => listMax (rollWindow w xs i)

/-- Series.rolling(window=w, min_periods=1).min(). -/
def rollingMin (w : ℕ) (xs : List ℚ) : List ℚ :=
  (List.range xs.length).map fun i => listMin (rollWindow w xs i)

/-- Sample variance with ddof = 1 (numpy/pandas default for Series.std). -/
def sampleVar (l : List ℚ) : ℚ :=
  let m := listMean l
  (l.map fun x => (x - m) ^ 2).sum / ((l.length - 1 : ℕ) : ℚ)

/-- Series.rolling(window=w, min_periods=minp).std().  The standard
    deviation is the real square root of the sample variance and is
    irrational in general, so this embedding is parameterized by the
    square-root function `sqrtFn`; every theorem below holds for all of
    its interpretations.  A window with fewer than minp observations, or
    with a single observation (ddof = 1), yields NaN = none. -/
def rollingStd (sqrtFn : ℚ → ℚ) (w minp : ℕ) (xs : List ℚ) : List (Option ℚ) :=
  (List.range xs.length).map fun i =>
    let win := rollWindow w xs i
    if win.length < minp ∨ win.length < 2 then none
    else some (sqrtFn (sampleVar win))

/-- Series.pct_change(periods=n): x_i / x_(i-n) - 1, NaN for the first n
    rows.  (A zero x_(i-n) yields ±inf/NaN in pandas; it is embedded as
    none, and no claim exercises a zero-price history.) -/
def pctChange (n : ℕ) (xs : List ℚ) : List (Option ℚ) :=
  (List.range xs.length).map fun i =>
    if i < n then none
    else
      let prev := xs.getD (i - n) 0
      if prev = 0 then none else some (xs.getD i 0 / prev - 1)

/-- Per-row gains fed to the RSI: delta.where(delta > 0, 0); the first
    delta is NaN and `NaN > 0` is False, so row 0 becomes 0. -/
def rsiGains (xs : List ℚ) : List ℚ :=
  (List.range xs.length).map fun i =>
    if i = 0 then 0 else max (xs.getD i 0 - xs.getD (i - 1) 0) 0

/-- Per-row losses fed to the RSI: -delta.where(delta < 0, 0). -/
def rsiLosses (xs : List ℚ) : List ℚ :=
  (List.range xs.length).map fun i =>
    if i = 0 then 0 else max (xs.getD (i - 1) 0 - xs.getD i 0) 0

/-- RSI row from the rolling mean gain and loss: rs = gain/loss and
    RSI = 100 - 100/(1+rs).  loss = 0 with gain = 0 gives 0/0 = NaN
    (none); loss = 0 with gain > 0 gives rs = +inf and RSI = 100. -/
def rsiFromGainLoss (gain loss : ℚ) : Option ℚ :=
  if loss = 0 then (if gain = 0 then none else some 100)
  else some (100 - 100 / (1 + gain / loss))

/-- Exponentially weighted mean, span s, adjust=False:
    y_0 = x_0 and y_i = (1-α) y_(i-1) + α x_i with α = 2/(s+1). -/
def ewmGo (α : ℚ) : ℚ → List ℚ → List ℚ
  | _, [] => []
  | prev, x :: t =>
    let y := (1 - α) * prev + α * x
    y :: ewmGo α y t

/-- Series.ewm(span=s, adjust=False).mean(). -/
def ewmMean (s : ℕ) : List ℚ → List ℚ
  | [] => []
  | x :: t => x :: ewmGo (2 / ((s : ℚ) + 1)) x t

/-- Result of StockDataCollector.calculate_indicators: the original rows
    plus the point-aligned indicator columns.  Columns that pandas can
    fill with NaN are Option-valued; 52W_High / 52W_Low are named
    W52_High / W52_Low (identifiers cannot start with a digit).
    BB_std carries sqrtFn applied to the rolling sample variance, and the
    Bollinger bands are BB_Middle ± 2·BB_std as in the source. -/
structure IndicatorFrame where
  rows : List PriceRow
  MA20 : List ℚ
  MA60 : List ℚ
  MA120 : List ℚ
  BB_Middle : List ℚ
  BB_std : List (Option ℚ)
  Upper_Band : List (Option ℚ)
  Lower_Band : List (Option ℚ)
  Volume_MA5 : List ℚ
  Volume_MA20 : List ℚ
  W52_High : List ℚ
  W52_Low : List ℚ
  Return_1D : List (Option ℚ)
  Return_13W : List (Option ℚ)
  Return_26W : List (Option ℚ)
  RSI : List (Option ℚ)
  MACD : List ℚ
  MACD_Signal : List ℚ
  MACD_Histogram : List ℚ
deriving DecidableEq

/-- StockDataCollector.calculate_indicators.  (On an empty frame the
    source returns the input unchanged; here every column is simply [].) -/
def calculate_indicators (sqrtFn : ℚ → ℚ) (rows : List PriceRow) : IndicatorFrame :=
  let closes := rows.map PriceRow.Close
  let highs := rows.map PriceRow.High
  let lows := rows.map PriceRow.Low
  let vols := rows.map PriceRow.Volume
  let ma20 := rollingMean 20 closes
  let bb_std := rollingStd sqrtFn 20 1 closes
  let gain := rollingMean 14 (rsiGains closes)
  let loss := rollingMean 14 (rsiLosses closes)
  let macd := List.zipWith (fun a b => a - b) (ewmMean 12 closes) (ewmMean 26 closes)
  let macd_signal := ewmMean 9 macd
  { rows := rows
    MA20 := ma20
    MA60 := rollingMean 60 closes
    MA120 := rollingMean 120 closes
    BB_Middle := ma20
    BB_std := bb_std
    Upper_Band := List.zipWith (fun m s => s.map fun v => m + v * 2) ma20 bb_std
    Lower_Band := List.zipWith (fun m s => s.map fun v => m - v * 2) ma20 bb_std
    Volume_MA5 := rollingMean 5 vols
    Volume_MA20 := rollingMean 20 vols
    W52_High := rollingMax 252 highs
    W52_Low := rollingMin 252 lows
    Return_1D := pctChange 1 closes
    Return_13W := pctChange 65 closes
    Return_26W := pctChange 130 closes
    RSI := List.zipWith rsiFromGainLoss gain loss
    MACD := macd
    MACD_Signal := macd_signal
    MACD_Histogram := List.zipWith (fun a b => a - b) macd macd_signal }

/-- Last k elements of a list (pandas .tail(k) / .iloc[-k:]). -/
def takeLast (k : ℕ) (l : List ℚ) : List ℚ := l.drop (l.length - k)

/-- Last element of a column (iloc[-1]); only used on nonempty columns. -/
def lastQ (xs : List ℚ) : ℚ := xs.getLast?.getD 0

/-- Last row of the frame (iloc[-1]); only used on nonempty frames. -/
def lastRow (rows : List PriceRow) : PriceRow := rows.getLast?.getD ⟨0, 0, 0, 0, 0⟩

/-- Second-to-last row of the frame (iloc[-2]). -/
def prevRow (rows : List PriceRow) : PriceRow := rows.dropLast.getLast?.getD ⟨0, 0, 0, 0, 0⟩

/-- Latest close of the frame. -/
def lastClose (df : IndicatorFrame) : ℚ := (lastRow df.rows).Close

/-- PatternAnalyzer.detect_vcp with its default arguments (window=60,
    std_threshold=0.8, min_periods=20): volatility contraction of the
    high-low range plus a moving-average-aligned uptrend.  The source's
    `df.empty or len(df) < window` guard collapses to len < 60; the inner
    `len(recent_df) < 50` guard never fires since recent_df has 60 rows.
    A float comparison involving NaN is False, matching the `match`.
    Evidence is modelled by its key set. -/
def detect_vcp (sqrtFn : ℚ → ℚ) (df : IndicatorFrame) : Bool × List String :=
  if df.rows.length < 60 then (false, [])
  else
    let recent := takeLast 60 (df.rows.map fun r => r.High - r.Low)
    let volatility := rollingStd sqrtFn 20 20 recent
    let recent_volatility := listMeanSkipNa ((volatility.drop (volatility.length - 20)).take 20)
    let previous_volatility := listMeanSkipNa ((volatility.drop (volatility.length - 50)).take 30)
    let vcp0 : Bool :=
      match recent_volatility, previous_volatility with
      | some a, some b => decide (a < b * 0.8)
      | _, _ => false
    let ma_aligned : Bool :=
      decide (lastClose df > lastQ df.MA20 ∧ lastQ df.MA20 > lastQ df.MA60 ∧
        lastQ df.MA60 > lastQ df.MA120)
    (vcp0 && ma_aligned,
      ["recent_volatility", "previous_volatility", "volatility_ratio", "ma_aligned"])

/-- PatternAnalyzer.detect_pocket_pivot with its default arguments
    (window=50, volume_factor=1.5): volume above 1.5× its 20-period MA,
    close strictly above 1.03× the prior close, and close > MA20 > MA60. -/
def detect_pocket_pivot (df : IndicatorFrame) : Bool × List String :=
  if df.rows.length < 50 then (false, [])
  else
    let latest := lastRow df.rows
    let prev := prevRow df.rows
    let volume_surge : Bool := decide (latest.Volume > lastQ df.Volume_MA20 * 1.5)
    let price_up : Bool := decide (latest.Close > prev.Close * 1.03)
    let above_ma : Bool := decide (latest.Close > lastQ df.MA20 ∧ lastQ df.MA20 > lastQ df.MA60)
    (volume_surge && price_up && above_ma, ["volume_ratio", "price_change_pct", "above_ma"])

/-- PatternAnalyzer.detect_breakout with its default arguments (window=60,
    consolidation_days=20): close above the maximum high of iloc[-25:-5]
    of the last 60 rows, with volume above 1.3× its 20-period MA.  The
    inner `len(recent_df) < consolidation_days + 5` guard never fires
    since recent_df has 60 rows. -/
def detect_breakout (df : IndicatorFrame) : Bool × List String :=
  if df.rows.length < 60 then (false, [])
  else
    let resistance := listMax (((takeLast 60 (df.rows.map PriceRow.High)).drop 35).take 20)
    let latest := lastRow df.rows
    let close_breakout : Bool := decide (latest.Close > resistance)
    let volume_surge : Bool := decide (latest.Volume > lastQ df.Volume_MA20 * 1.3)
    (close_breakout && volume_surge,
      ["resistance_level", "breakout_level", "price_to_resistance_ratio", "volume_surge"])

/-- Short-term MA alignment component of calculate_trend_score (6 points:
    close > MA20 gives 3, MA20 > MA60 gives 3). -/
def ma_alignment_score (df : IndicatorFrame) : ℚ :=
  (if lastClose df > lastQ df.MA20 then 3 else 0) +
    (if lastQ df.MA20 > lastQ df.MA60 then 3 else 0)

/-- Positivity of the MA slope (latest / earlier - 1) * 100 > 0.  A zero
    denominator gives ±inf/NaN in numpy: positive iff the numerator is
    positive, matching the first branch. -/
def slope_positive (cur prev : ℚ) : Bool :=
  if prev = 0 then decide (0 < cur) else decide (0 < (cur / prev - 1) * 100)

/-- Medium-term MA trend component of calculate_trend_score (6 points,
    2 per positive MA20/MA60/MA120 slope, with the source's iloc offsets). -/
def ma_trend_score (df : IndicatorFrame) : ℚ :=
  if df.rows.length ≥ 20 then
    (if slope_positive (lastQ df.MA20) (df.MA20.getD (df.rows.length - 20) 0) then 2 else 0) +
      (if df.rows.length ≥ 60 then
        (if slope_positive (lastQ df.MA60)
          (df.MA60.getD (df.rows.length - min 60 (df.rows.length - 1)) 0) then 2 else 0)
       else 0) +
      (if df.rows.length ≥ 120 then
        (if slope_positive (lastQ df.MA120)
          (df.MA120.getD (df.rows.length - min 120 (df.rows.length - 1)) 0) then 2 else 0)
       else 0)
  else 0

/-- Long-term trend component of calculate_trend_score (6 points, position
    of the close relative to the 52-week low). -/
def long_trend_score (df : IndicatorFrame) : ℚ :=
  if lastQ df.W52_Low > 0 then
    if lastClose df / lastQ df.W52_Low ≥ 1.5 then 6
    else if lastClose df / lastQ df.W52_Low ≥ 1.3 then 4
    else if lastClose df / lastQ df.W52_Low ≥ 1.2 then 2
    else 0
  else 0

/-- The recent_5d_volume of calculate_trend_score: mean volume of the last
    5 rows. -/
def recent_5d_volume (df : IndicatorFrame) : ℚ :=
  listMean (takeLast 5 (df.rows.map PriceRow.Volume))

/-- The avg_volume_20 of calculate_trend_score: mean volume of the last
    20 rows. -/
def avg_volume_20 (df : IndicatorFrame) : ℚ :=
  listMean (takeLast 20 (df.rows.map PriceRow.Volume))

/-- The avg_volume_60 of calculate_trend_score: mean volume of the last
    min(60, len) rows. -/
def avg_volume_60 (df : IndicatorFrame) : ℚ :=
  listMean (takeLast (min 60 df.rows.length) (df.rows.map PriceRow.Volume))

/-- volume_ratio_20d of calculate_trend_score (0 on a nonpositive mean). -/
def volume_ratio_20d (df : IndicatorFrame) : ℚ :=
  if avg_volume_20 df > 0 then recent_5d_volume df / avg_volume_20 df else 0

/-- volume_ratio_60d of calculate_trend_score (0 on a nonpositive mean). -/
def volume_ratio_60d (df : IndicatorFrame) : ℚ :=
  if avg_volume_60 df > 0 then recent_5d_volume df / avg_volume_60 df else 0

/-- The tiered base volume score of calculate_trend_score. -/
def volume_base_score (r : ℚ) : ℚ :=
  if r ≥ 2 then 7 else if r ≥ 1.5 then 6
  else if r ≥ 1.3 then 5 else if r ≥ 1.1 then 4
  else if r ≥ 1 then 3 else if r ≥ 0.8 then 2
  else if r ≥ 0.5 then 1 else 0

/-- Volume-confirmation component of calculate_trend_score (7 points,
    tiered 5-day/20-day volume ratio plus a 60-day bonus capped at 7). -/
def volume_score (df : IndicatorFrame) : ℚ :=
  if df.rows.length ≥ 20 then
    if volume_ratio_60d df ≥ 1.5 then min (volume_base_score (volume_ratio_20d df) + 1) 7
    else volume_base_score (volume_ratio_20d df)
  else 0

/-- ScoreCalculator.calculate_trend_score (score only; the details dict is
    not modelled).  The `score += component / 6 * 6` statements of the
    source are the identity on the component values, and the indicator
    columns always exist on an IndicatorFrame, so the column-presence
    guards are True. -/
def calculate_trend_score (df : IndicatorFrame) : ℚ :=
  if df.rows.isEmpty then 0
  else pyRound1 (ma_alignment_score df + ma_trend_score df + long_trend_score df +
    volume_score df)

/-- One half of calculate_rs_score: the return spread over its scale
    (0.2 for 13 weeks, 0.3 for 26 weeks) clamped to [0, 1] and worth up to
    12.5 points; a NaN return on either side contributes 0 (np.isnan
    guard). -/
def rs_half_score (stockR marketR : Option ℚ) (scale : ℚ) : ℚ :=
  match stockR, marketR with
  | some s, some m => min (max ((s - m) / scale) 0) 1 * 12.5
  | _, _ => 0

/-- ScoreCalculator.calculate_rs_score (score only): 13-week and 26-week
    return spreads versus the market frame, each scaled to 12.5 points. -/
def calculate_rs_score (stock_data market_data : IndicatorFrame) : ℚ :=
  if stock_data.rows.isEmpty ∨ market_data.rows.isEmpty then 0
  else
    pyRound1 (rs_half_score (stock_data.Return_13W.getLast?.getD none)
        (market_data.Return_13W.getLast?.getD none) 0.2 +
      rs_half_score (stock_data.Return_26W.getLast?.getD none)
        (market_data.Return_26W.getLast?.getD none) 0.3)

/-- Sector defaults row of _generate_default_financial_data. -/
structure SectorDefaults where
  roe : ℚ
  operating_margin : ℚ
  debt_ratio : ℚ
  sales_yoy : ℚ
  op_income_yoy : ℚ
  per : ℚ
  pbr : ℚ
  dividend_yield : ℚ
deriving DecidableEq

/-- The sector_defaults table of _generate_default_financial_data. -/
def sector_defaults (s : String) : SectorDefaults :=
  if s = "tech" then ⟨8, 12, 40, 15, 12, 25, 3, 1⟩
  else if s = "manufacturing" then ⟨6, 8, 60, 8, 6, 15, 1.5, 2.5⟩
  else if s = "service" then ⟨7, 10, 50, 10, 8, 18, 2, 2⟩
  else ⟨5, 8, 50, 8, 5, 20, 2, 1.5⟩

/-- The estimate_sector helper of _generate_default_financial_data:
    symbol-code ranges mapped to an assumed sector. -/
def estimate_sector (code : ℕ) : String :=
  if 140000 ≤ code ∧ code ≤ 150000 then "tech"
  else if 200000 ≤ code ∧ code ≤ 300000 then "tech"
  else if 5000 ≤ code ∧ code ≤ 10000 then "manufacturing"
  else if 30000 ≤ code ∧ code ≤ 40000 then "tech"
  else if 50000 ≤ code ∧ code ≤ 70000 then "manufacturing"
  else "default"

/-- FinancialDataCollector._generate_default_financial_data (tier 6, last
    resort, always succeeds): sector-bucketed canned estimates.  Only the
    keys of the canonical FinDict projection are modelled (the virtual
    absolute figures sales/equity/... are consumed by no claim); eps/bps
    use int() truncation, which is the floor on these positive values.
    The except-branch minimal default is unreachable (no statement in the
    body raises) and is not modelled. -/
def generate_default_financial_data (code : ℕ) : FinDict :=
  let s := estimate_sector code
  let d := sector_defaults s
  { roe := some d.roe
    operating_margin := some d.operating_margin
    net_margin := some (d.operating_margin * 0.7)
    debt_ratio := some d.debt_ratio
    sales_yoy := some d.sales_yoy
    op_income_yoy := some d.op_income_yoy
    net_income_yoy := some (d.op_income_yoy * 1.2)
    sales_qoq := some (d.sales_yoy / 4)
    op_income_qoq := some (d.op_income_yoy / 4)
    net_income_qoq := some (d.op_income_yoy * 1.2 / 4)
    per := some d.per
    pbr := some d.pbr
    dividend_yield := some d.dividend_yield
    eps := some ((⌊(100000000000 : ℚ) * d.operating_margin * 0.7 / 100 / 10000000⌋ : ℤ) : ℚ)
    bps := some ((⌊(100000000000 : ℚ) / d.roe * 100 / 10000000⌋ : ℤ) : ℚ)
    data_source := some ("추정값_" ++ s)
    source := some ("estimated_" ++ s) }

/-- Environment of a get_financial_statement resolution for one symbol:
    the outcome each data tier would produce if attempted.  A tier whose
    lookup/fetch fails (or raises, absorbed by the per-tier try/except)
    is `none`. -/
structure ResolverEnv where
  cache : Option FinDict := none
  f_data_financial : Option FinDict := none
  f_data_fundamental_raw : Option FinDict := none
  specified_json : Option FinDict := none
  financial_data_folder : Option FinDict := none
  dart_fss_available : Bool := false
  dart_fss : Option FinDict := none
  pykrx : Option FinDict := none
  api_key : Bool := false
  dart_api : Option FinDict := none
deriving DecidableEq

/-- FinancialDataCollector.get_f_data_fundamental: keyed lookup in the
    pre-loaded f_data snapshot; on a hit, a copy of the entry with
    data_source forced to "f_data_fundamental". -/
def get_f_data_fundamental (env : ResolverEnv) : Option FinDict :=
  env.f_data_fundamental_raw.map fun d => { d with data_source := some "f_data_fundamental" }

/-- The has_meaningful_data filter of the pykrx tier: at least one of
    per/pbr/eps/bps/roe/operating_margin/dividend_yield positive. -/
def pykrx_meaningful (d : FinDict) : Bool :=
  decide (0 < d.per.getD 0) || decide (0 < d.pbr.getD 0) || decide (0 < d.eps.getD 0) ||
    decide (0 < d.bps.getD 0) || decide (0 < d.roe.getD 0) ||
    decide (0 < d.operating_margin.getD 0) || decide (0 < d.dividend_yield.getD 0)

/-- FinancialDataCollector.get_financial_statement: fresh cache hits bypass
    the chain; otherwise the tiers are attempted in strict order
    (f_data financial, f_data fundamental, specified JSON files,
    financial_data folder, dart-fss if available, pykrx if meaningful,
    DART API if a key is set, sector defaults as the always-succeeding
    last resort) and the first non-None result is returned. -/
def get_financial_statement (code : ℕ) (env : ResolverEnv) : FinDict :=
  match env.cache with
  | some cached => cached
  | none =>
    ((((((env.f_data_financial.orElse fun _ => get_f_data_fundamental env).orElse
      fun _ => env.specified_json).orElse
      fun _ => env.financial_data_folder).orElse
      fun _ => if env.dart_fss_available then env.dart_fss else none).orElse
      fun _ => (env.pykrx.bind fun d => if pykrx_meaningful d then some d else none)).orElse
      fun _ => if env.api_key then env.dart_api else none).getD
      (generate_default_financial_data code)

/-- How one per-instrument future resolves in run_screening's collection
    loop: a result dict (success), a None return (the task absorbed its own
    exception), or an exception raised by future.result itself (timeout or
    submission failure). -/
inductive TaskOutcome where
  | success
  | noneResult
  | exceptional
deriving DecidableEq

/-- Counters of run_screening's collection loop. -/
structure CollectState where
  processed_count : ℕ
  success_count : ℕ
  error_count : ℕ
  aborted : Bool
deriving DecidableEq

/-- One pass of run_screening's as_completed loop over the task outcomes in
    completion order.  A success or a None result updates the counters and
    continues; an exception from future.result lands in the except branch,
    which increments the counters and then — only there — checks the
    circuit breaker `error_count > total_stocks * 0.5` and breaks. -/
def collectResults (total_stocks : ℕ) : CollectState → List TaskOutcome → CollectState
  | st, [] => st
  | st, TaskOutcome.success :: rest =>
    collectResults total_stocks
      ⟨st.processed_count + 1, st.success_count + 1, st.error_count, st.aborted⟩ rest
  | st, TaskOutcome.noneResult :: rest =>
    collectResults total_stocks
      ⟨st.processed_count + 1, st.success_count, st.error_count + 1, st.aborted⟩ rest
  | st, TaskOutcome.exceptional :: rest =>
    let st1 : CollectState :=
      ⟨st.processed_count + 1, st.success_count, st.error_count + 1, st.aborted⟩
    if (st1.error_count : ℚ) > (total_stocks : ℚ) * 0.5 then { st1 with aborted := true }
    else collectResults total_stocks st1 rest

/-- run_screening's result-collection phase, started from zeroed counters. -/
def run_screening_collect (total_stocks : ℕ) (outcomes : List TaskOutcome) : CollectState :=
  collectResults total_stocks ⟨0, 0, 0, false⟩ outcomes

/-- The circuit-breaker comparison error_count > total_stocks * 0.5,
    restated over ℕ. -/
theorem breaker_iff (e t : ℕ) : ((e : ℚ) > (t : ℚ) * 0.5) ↔ 2 * e > t := by
  have h05 : (0.5 : ℚ) = 1 / 2 := by norm_num
  rw [h05]
  constructor
  · intro h
    have h2 : (t : ℚ) < 2 * (e : ℚ) := by linarith
    exact_mod_cast h2
  · intro h
    have h2 : (t : ℚ) < ((2 * e : ℕ) : ℚ) := by exact_mod_cast h
    push_cast at h2
    linarith

/-- Unfolding of the collection loop on an exception outcome, with the
    circuit-breaker condition restated over ℕ. -/
theorem collectResults_exceptional_cons (t : ℕ) (st : CollectState) (rest : List TaskOutcome) :
    collectResults t st (TaskOutcome.exceptional :: rest) =
      (if 2 * (st.error_count + 1) > t then
        ⟨st.processed_count + 1, st.success_count, st.error_count + 1, true⟩
      else
        collectResults t ⟨st.processed_count + 1, st.success_count, st.error_count + 1, st.aborted⟩ rest) := by
  simp only [collectResults]
  split_ifs with h1 h2 h2
  · rfl
  · exact absurd ((breaker_iff _ _).mp h1) h2
  · exact absurd ((breaker_iff _ _).mpr h2) h1
  · rfl

/-- On a stretch of outcomes containing no exception, the collection loop
    never consults the circuit breaker: it processes every task, counting
    None results as errors and dicts as successes. -/
theorem collectResults_no_exception (t : ℕ) (outs : List TaskOutcome) (st : CollectState)
    (h : TaskOutcome.exceptional ∉ outs) :
    collectResults t st outs =
      ⟨st.processed_count + outs.length, st.success_count + outs.count TaskOutcome.success,
        st.error_count + outs.count TaskOutcome.noneResult, st.aborted⟩ := by
  induction outs generalizing st with
  | nil => simp [collectResults]
  | cons o rest ih =>
    have ho : o ≠ TaskOutcome.exceptional := fun he => h (he ▸ List.mem_cons_self o rest)
    have hr : TaskOutcome.exceptional ∉ rest := fun he => h (List.mem_cons_of_mem o he)
    cases o with
    | success =>
      rw [show collectResults t st (TaskOutcome.success :: rest) =
        collectResults t ⟨st.processed_count + 1, st.success_count + 1, st.error_count, st.aborted⟩ rest
        from rfl, ih _ hr]
      simp [List.count_cons]
      omega
    | noneResult =>
      rw [show collectResults t st (TaskOutcome.noneResult :: rest) =
        collectResults t ⟨st.processed_count + 1, st.success_count, st.error_count + 1, st.aborted⟩ rest
        from rfl, ih _ hr]
      simp [List.count_cons]
      omega
    | exceptional => exact absurd rfl ho

/-- A run of m consecutive exception outcomes that stays at or below the
    50% threshold of a 100-symbol universe passes through the breaker
    without aborting. -/
theorem collectResults_exceptional_prefix (m : ℕ) (p s e : ℕ) (rest : List TaskOutcome)
    (hm : 2 * (e + m) ≤ 100) :
    collectResults 100 ⟨p, s, e, false⟩ (List.replicate m TaskOutcome.exceptional ++ rest) =
      collectResults 100 ⟨p + m, s, e + m, false⟩ rest := by
  induction m generalizing p e with
  | zero => simp
  | succ k ih =>
    rw [List.replicate_succ, List.cons_append, collectResults_exceptional_cons]
    show (if 2 * (e + 1) > 100 then (⟨p + 1, s, e + 1, true⟩ : CollectState)
        else collectResults 100 ⟨p + 1, s, e + 1, false⟩ (List.replicate k TaskOutcome.exceptional ++ rest)) =
      collectResults 100 ⟨p + (k + 1), s, e + (k + 1), false⟩ rest
    rw [if_neg (show ¬2 * (e + 1) > 100 by omega)]
    rw [ih (p + 1) (e + 1) (by omega)]
    rw [show p + 1 + k = p + (k + 1) by omega, show e + 1 + k = e + (k + 1) by omega]

/-- C1: for all sub-score inputs, calculate_total_score returns
    min(round((trend+pattern+rs+fundamental+investor)/112*100, 1), 100.0);
    in particular the all-max input (25,20,25,30,12) yields 100.0 and the
    all-zero input yields 0.0. -/
theorem calculate_total_score_spec :
    (∀ t p r f i : ℚ, calculate_total_score t p r f i =
      min (pyRound1 ((t + p + r + f + i) / 112 * 100)) 100) ∧
    calculate_total_score 25 20 25 30 12 = 100 ∧
    calculate_total_score 0 0 0 0 0 = 0 := by
  refine ⟨fun t p r f i => rfl, ?_, ?_⟩
  · unfold calculate_total_score pyRound1 roundHalfEven
    norm_num
  · unfold calculate_total_score pyRound1 roundHalfEven
    norm_num

/-- C3 counterexample: in a 100-symbol universe where 60 tasks fail by
    returning None (the ordinary failure mode: process_single_stock absorbs
    its own exceptions), the collection loop processes all 100 tasks and
    never aborts, even though the cumulative failures exceed 50% of the
    tasks processed — the circuit-breaker check lives only in the except
    branch of future.result, which these failures never reach. -/
theorem run_screening_none_failures_process_all :
    run_screening_collect 100
      (List.replicate 60 TaskOutcome.noneResult ++ List.replicate 40 TaskOutcome.success) =
      ⟨100, 40, 60, false⟩ := by
  unfold run_screening_collect
  rw [collectResults_no_exception 100 _ _ (by simp [List.mem_append, List.mem_replicate])]
  rw [List.count_append, List.count_append, List.length_append, List.length_replicate,
    List.length_replicate, List.count_replicate, List.count_replicate, List.count_replicate,
    List.count_replicate]
  rfl

/-- C3 (amended): the circuit breaker fires only on failures that surface
    as exceptions from future.result (timeouts), and its threshold is 50%
    of the total universe size; for a 100-symbol universe whose first 60
    tasks fail that way, the loop aborts after processing 51 tasks,
    before reaching all 100. -/
theorem run_screening_timeout_failures_abort :
    run_screening_collect 100
      (List.replicate 60 TaskOutcome.exceptional ++ List.replicate 40 TaskOutcome.success) =
      ⟨51, 0, 51, true⟩ ∧ 51 < 100 := by
  refine ⟨?_, by omega⟩
  unfold run_screening_collect
  rw [show (List.replicate 60 TaskOutcome.exceptional : List TaskOutcome) =
    List.replicate 50 TaskOutcome.exceptional ++ List.replicate 10 TaskOutcome.exceptional by
      rw [← List.replicate_add]]
  rw [List.append_assoc, collectResults_exceptional_prefix 50 0 0 0 _ (by omega)]
  rw [show (List.replicate 10 TaskOutcome.exceptional : List TaskOutcome) =
    TaskOutcome.exceptional :: List.replicate 9 TaskOutcome.exceptional from rfl]
  rw [List.cons_append, collectResults_exceptional_cons]
  show (if 2 * (50 + 1) > 100 then (⟨50 + 1, 0, 50 + 1, true⟩ : CollectState)
      else collectResults 100 ⟨50 + 1, 0, 50 + 1, false⟩
        (List.replicate 9 TaskOutcome.exceptional ++ List.replicate 40 TaskOutcome.success)) =
    ⟨51, 0, 51, true⟩
  rw [if_pos (show 2 * (50 + 1) > 100 by omega)]

theorem investor_foreign_pts_nonneg (d : InvestorDict) : 0 ≤ investor_foreign_pts d := by
  unfold investor_foreign_pts
  split_ifs <;> norm_num

theorem investor_institution_pts_nonneg (d : InvestorDict) : 0 ≤ investor_institution_pts d := by
  unfold investor_institution_pts
  split_ifs <;> norm_num

theorem investor_consecutive_pts_nonneg (d : InvestorDict) : 0 ≤ investor_consecutive_pts d := by
  unfold investor_consecutive_pts
  split_ifs <;> simp <;> norm_num

theorem investor_short_pts_nonneg (d : InvestorDict) : 0 ≤ investor_short_pts d := by
  unfold investor_short_pts
  split_ifs <;> norm_num

/-- C5 counterexample: a falsy (None / empty) financial_data input makes
    calculate_fundamental_score return exactly 0.0 (tagged 'none'), not a
    minimal floor score strictly greater than zero. -/
theorem calculate_fundamental_score_empty_zero :
    calculate_fundamental_score none = (0, "none") := rfl

/-- C5 (amended): with no fundamentals at all (None or empty dict) the
    score is exactly 0.0 tagged 'none'; the minimal positive floor of 3.0
    is emitted one level later, for a non-empty record that carries none of
    the recognized keys (no f_data tag, no roe-and-debt_ratio pair, no
    per/pbr), with the record's source tag passed through. -/
theorem calculate_fundamental_score_floor :
    calculate_fundamental_score none = (0, "none") ∧
    ∀ d : FinDict,
      d.source.getD (d.data_source.getD "unknown") ≠ "f_data_fundamental" →
      d.source.getD (d.data_source.getD "unknown") ≠ "f_data_financial" →
      ¬(d.roe.isSome ∧ d.debt_ratio.isSome) →
      d.per = none → d.pbr = none →
      (calculate_fundamental_score (some d)).1 = 3 := by
  refine ⟨rfl, fun d h1 h2 h3 h4 h5 => ?_⟩
  show (min (pyRound1 (if d.source.getD (d.data_source.getD "unknown") = "f_data_fundamental"
      then roe_score12 (d.roe.getD 0) + per_score9 (d.per.getD 0) + pbr_score9 (d.pbr.getD 0)
      else if d.source.getD (d.data_source.getD "unknown") = "f_data_financial" then
        roe_score8 (d.roe.getD 0) + op_margin_score7 (d.operating_margin.getD 0) +
          revenue_growth_score7 (d.revenue_yoy.getD 0) +
          op_growth_score6 (d.operating_profit_yoy.getD 0) +
          debt_score2 (d.debt_ratio.getD 0)
      else if d.roe.isSome ∧ d.debt_ratio.isSome then
        roe_score8 (d.roe.getD 0) + op_margin_score7 (d.operating_margin.getD 0) +
          min (sales_yoy_score5 (d.sales_yoy.getD 0) + sales_qoq_score2 (d.sales_qoq.getD 0)) 7 +
          min (op_yoy_score4 (d.op_income_yoy.getD 0) + op_qoq_score2 (d.op_income_qoq.getD 0)) 6 +
          debt_score2 (d.debt_ratio.getD 0)
      else if d.per.isSome ∨ d.pbr.isSome then
        if d.per.getD 0 = 0 ∧ d.pbr.getD 0 = 0 ∧ d.dividend_yield.getD 0 = 0 then 5
        else per_score12 (d.per.getD 0) + pbr_score12 (d.pbr.getD 0) +
          div_score6 (d.dividend_yield.getD 0)
      else 3)) 30) = 3
  rw [if_neg h1, if_neg h2, if_neg h3,
    if_neg (show ¬(d.per.isSome ∨ d.pbr.isSome) by simp [h4, h5])]
  unfold pyRound1 roundHalfEven
  norm_num

/-- C5 witness: a record that only carries a source tag (as tier outputs
    with no usable numbers do) receives the positive floor 3.0. -/
theorem calculate_fundamental_score_floor_witness :
    (calculate_fundamental_score (some { source := some "collected_json" })).1 = 3 ∧
      (0 : ℚ) < 3 :=
  ⟨calculate_fundamental_score_floor.2 { source := some "collected_json" }
    (by simp) (by simp) (by simp) rfl rfl, by norm_num⟩

/-- C10 counterexample: a flow dict whose data_source is present and not
    'default' but whose short-selling ratio is 15% scores 0.0, refuting the
    claim that every such dict scores at least 2.0. -/
theorem calculate_investor_score_high_short_zero :
    calculate_investor_score
      (some { data_source := some "krx", short_selling_ratio := some 15 }) = 0 := by
  show min (pyRound1 (investor_foreign_pts _ + investor_institution_pts _ +
    investor_consecutive_pts _ + investor_short_pts _)) 12 = 0
  norm_num [investor_foreign_pts, investor_institution_pts, investor_consecutive_pts,
    investor_short_pts, pyRound1, roundHalfEven]

/-- C10 (amended): for every investor-flow dict whose data_source is
    present and not the 'default' placeholder and whose short-selling
    ratio (0 when the key is absent) is at most 1%, the score is at least
    2.0, because that ratio falls in the ≤1% tier worth 2 points and every
    other component is nonnegative. -/
theorem calculate_investor_score_short_tier_floor (d : InvestorDict) (s : String)
    (hs : d.data_source = some s) (hsd : s ≠ "default")
    (hr : d.short_selling_ratio.getD 0 ≤ 1) :
    2 ≤ calculate_investor_score (some d) := by
  show 2 ≤ (if d.data_source.getD "unknown" = "default" then 0
    else min (pyRound1 (investor_foreign_pts d + investor_institution_pts d +
      investor_consecutive_pts d + investor_short_pts d)) 12)
  rw [hs]
  rw [if_neg (show ¬(some s).getD "unknown" = "default" by simpa using hsd)]
  have hshort : investor_short_pts d = 2 := by
    unfold investor_short_pts
    rw [if_pos hr]
  have hsum : (2 : ℚ) ≤ investor_foreign_pts d + investor_institution_pts d +
      investor_consecutive_pts d + investor_short_pts d := by
    have := investor_foreign_pts_nonneg d
    have := investor_institution_pts_nonneg d
    have := investor_consecutive_pts_nonneg d
    rw [hshort]
    linarith
  have hround : (2 : ℚ) ≤ pyRound1 (investor_foreign_pts d + investor_institution_pts d +
      investor_consecutive_pts d + investor_short_pts d) := by
    have := le_pyRound1 (n := 2) (by exact_mod_cast hsum)
    exact_mod_cast this
  exact le_min hround (by norm_num)

/-- C10 witness: an instrument with zero foreign and institution activity
    and no short-selling data (all keys absent, real data_source) scores
    exactly 2.0 — at least 2 by the theorem, and exactly 2 by evaluation. -/
theorem calculate_investor_score_short_tier_floor_witness :
    2 ≤ calculate_investor_score (some { data_source := some "pykrx" }) ∧
      calculate_investor_score (some { data_source := some "pykrx" }) = 2 := by
  constructor
  · exact calculate_investor_score_short_tier_floor _ "pykrx" rfl (by simp) (by norm_num)
  · show min (pyRound1 (investor_foreign_pts _ + investor_institution_pts _ +
      investor_consecutive_pts _ + investor_short_pts _)) 12 = 2
    norm_num [investor_foreign_pts, investor_institution_pts, investor_consecutive_pts,
      investor_short_pts, pyRound1, roundHalfEven]

/-- C2: with no fresh cache entry, the resolver chain of
    get_financial_statement attempts the tiers in strict priority order;
    when the pre-loaded f_data snapshot (tier 1) has data for the symbol,
    the returned record is that tier's record with its data_source tag set
    to the tier-1 identifier "f_data_fundamental" — never the lowest-tier
    default-estimate identifier, even though tier 6 always has data. -/
theorem get_financial_statement_tier1_priority (code : ℕ) (env : ResolverEnv) (r : FinDict)
    (hc : env.cache = none) (hf : env.f_data_financial = none)
    (hraw : env.f_data_fundamental_raw = some r) :
    (get_financial_statement code env).data_source = some "f_data_fundamental" ∧
    (get_financial_statement code env).data_source ≠
      (generate_default_financial_data code).data_source := by
  have hres : get_financial_statement code env =
      { r with data_source := some "f_data_fundamental" } := by
    unfold get_financial_statement get_f_data_fundamental
    rw [hc, hf, hraw]
    rfl
  rw [hres]
  refine ⟨rfl, ?_⟩
  show some "f_data_fundamental" ≠ some ("추정값_" ++ estimate_sector code)
  unfold estimate_sector
  split_ifs <;> simp

/-- A tier-1 fundamentals snapshot entry used by the C2 witness. -/
def f_data_entry_005930 : FinDict :=
  { roe := some 15, per := some 9, pbr := some 1, source := some "fundamental_data_202506" }

/-- An environment in which tier 1 (f_data fundamental) has data for the
    symbol and tier 6 would also answer, used by the C2 witness. -/
def resolver_env_005930 : ResolverEnv :=
  { f_data_fundamental_raw := some f_data_entry_005930 }

/-- C2 witness: a concrete environment where tier 1 holds a fundamentals
    record and tier 6 would also answer; the winning tag is tier 1's. -/
theorem get_financial_statement_tier1_priority_witness :
    (get_financial_statement 5930 resolver_env_005930).data_source =
      some "f_data_fundamental" ∧
    (get_financial_statement 5930 resolver_env_005930).data_source ≠
      (generate_default_financial_data 5930).data_source :=
  get_financial_statement_tier1_priority 5930 resolver_env_005930 f_data_entry_005930
    rfl rfl rfl

theorem getLast?_replicate_succ {α : Type _} (n : ℕ) (a : α) :
    (List.replicate (n + 1) a).getLast? = some a := by
  rw [List.replicate_succ', List.getLast?_concat]

theorem lastQ_replicate (n : ℕ) (c : ℚ) : lastQ (List.replicate (n + 1) c) = c := by
  rw [lastQ, getLast?_replicate_succ]
  rfl

theorem lastRow_concat (xs : List PriceRow) (a : PriceRow) : lastRow (xs ++ [a]) = a := by
  rw [lastRow, List.getLast?_concat]
  rfl

theorem prevRow_replicate_concat (n : ℕ) (a b : PriceRow) :
    prevRow (List.replicate (n + 1) a ++ [b]) = a := by
  rw [prevRow, List.dropLast_concat, getLast?_replicate_succ]
  rfl

/-- C7: every detector called on a series shorter than its required window
    (60 rows for detect_vcp and detect_breakout, 50 for
    detect_pocket_pivot — the empty series included) returns found = false
    with an empty evidence mapping, for every square-root interpretation. -/
theorem detectors_short_series_safe (sqrtFn : ℚ → ℚ) (df : IndicatorFrame) :
    (df.rows.length < 60 →
      detect_vcp sqrtFn df = (false, []) ∧ detect_breakout df = (false, [])) ∧
    (df.rows.length < 50 → detect_pocket_pivot df = (false, [])) := by
  refine ⟨fun h => ⟨?_, ?_⟩, fun h => ?_⟩
  · unfold detect_vcp
    rw [if_pos h]
  · unfold detect_breakout
    rw [if_pos h]
  · unfold detect_pocket_pivot
    rw [if_pos h]

/-- C7 witness: on the empty series (indicator-enriched empty frame) all
    three detectors return (false, empty evidence). -/
theorem detectors_short_series_safe_witness :
    detect_vcp (fun q => q) (calculate_indicators (fun q => q) []) = (false, []) ∧
    detect_breakout (calculate_indicators (fun q => q) []) = (false, []) ∧
    detect_pocket_pivot (calculate_indicators (fun q => q) []) = (false, []) :=
  ⟨((detectors_short_series_safe (fun q => q) _).1 (by decide)).1,
   ((detectors_short_series_safe (fun q => q) _).1 (by decide)).2,
   (detectors_short_series_safe (fun q => q) _).2 (by decide)⟩

/-- A filler row of the pocket-pivot boundary frame (close 100). -/
def pp_row_base : PriceRow := ⟨100, 100, 100, 100, 100⟩

/-- The latest row of the pocket-pivot boundary frame: close 103, exactly
    3.00% above the prior close of 100, on a 1000-share volume spike. -/
def pp_row_boundary : PriceRow := ⟨103, 103, 103, 103, 1000⟩

/-- A 50-row indicator frame whose latest bar closes exactly 3.00% above
    the prior close, with the volume condition (1000 > 145·1.5) and the
    MA alignment (103 > 101 > 100) both satisfied. -/
def pocket_pivot_boundary_frame : IndicatorFrame :=
  { rows := List.replicate 49 pp_row_base ++ [pp_row_boundary]
    MA20 := List.replicate 50 101
    MA60 := List.replicate 50 100
    MA120 := List.replicate 50 100
    BB_Middle := List.replicate 50 101
    BB_std := List.replicate 50 none
    Upper_Band := List.replicate 50 none
    Lower_Band := List.replicate 50 none
    Volume_MA5 := List.replicate 50 100
    Volume_MA20 := List.replicate 50 145
    W52_High := List.replicate 50 103
    W52_Low := List.replicate 50 100
    Return_1D := List.replicate 50 none
    Return_13W := List.replicate 50 none
    Return_26W := List.replicate 50 none
    RSI := List.replicate 50 none
    MACD := List.replicate 50 0
    MACD_Signal := List.replicate 50 0
    MACD_Histogram := List.replicate 50 0 }

/-- C6 counterexample: on the boundary frame the volume condition and the
    MA alignment hold and the latest close is exactly 3.00% above the
    prior close, yet detect_pocket_pivot does not fire — the price
    comparison latest.Close > prev.Close * 1.03 is strict, so the stated
    inclusive 3% boundary is wrong. -/
theorem detect_pocket_pivot_three_percent_boundary :
    (lastRow pocket_pivot_boundary_frame.rows).Volume >
      lastQ pocket_pivot_boundary_frame.Volume_MA20 * 1.5 ∧
    (lastRow pocket_pivot_boundary_frame.rows).Close =
      (prevRow pocket_pivot_boundary_frame.rows).Close * 1.03 ∧
    ((lastRow pocket_pivot_boundary_frame.rows).Close > lastQ pocket_pivot_boundary_frame.MA20 ∧
      lastQ pocket_pivot_boundary_frame.MA20 > lastQ pocket_pivot_boundary_frame.MA60) ∧
    (detect_pocket_pivot pocket_pivot_boundary_frame).1 = false := by
  have hlast : lastRow pocket_pivot_boundary_frame.rows = pp_row_boundary :=
    lastRow_concat _ _
  have hprev : prevRow pocket_pivot_boundary_frame.rows = pp_row_base := by
    show prevRow (List.replicate 49 pp_row_base ++ [pp_row_boundary]) = pp_row_base
    exact prevRow_replicate_concat 48 _ _
  have hlen : pocket_pivot_boundary_frame.rows.length = 50 := by
    simp [pocket_pivot_boundary_frame]
  refine ⟨?_, ?_, ⟨?_, ?_⟩, ?_⟩
  · rw [hlast]
    show (1000 : ℚ) > lastQ (List.replicate 50 145) * 1.5
    rw [show (50 : ℕ) = 49 + 1 from rfl, lastQ_replicate]
    norm_num
  · rw [hlast, hprev]
    show (103 : ℚ) = 100 * 1.03
    norm_num
  · rw [hlast]
    show (103 : ℚ) > lastQ (List.replicate 50 101)
    rw [show (50 : ℕ) = 49 + 1 from rfl, lastQ_replicate]
    norm_num
  · show lastQ (List.replicate 50 101) > lastQ (List.replicate 50 100)
    rw [show (50 : ℕ) = 49 + 1 from rfl, lastQ_replicate, lastQ_replicate]
    norm_num
  · unfold detect_pocket_pivot
    rw [if_neg (by rw [hlen]; omega)]
    rw [hlast, hprev]
    show (_ && decide ((103 : ℚ) > 100 * 1.03) && _) = false
    rw [decide_eq_false (by norm_num : ¬(103 : ℚ) > 100 * 1.03)]
    simp

/-- C6 (amended): detect_pocket_pivot on a series of at least its 50-row
    window fires if and only if (a) latest volume exceeds 1.5× its
    20-period volume moving average, (b) latest close exceeds the prior
    close by strictly more than 3% (the boundary is exclusive: a close
    exactly 3.00% above the prior close does not fire), and (c)
    close > MA20 > MA60. -/
theorem detect_pocket_pivot_iff (df : IndicatorFrame) (h : ¬df.rows.length < 50) :
    (detect_pocket_pivot df).1 = true ↔
      ((lastRow df.rows).Volume > lastQ df.Volume_MA20 * 1.5 ∧
        (lastRow df.rows).Close > (prevRow df.rows).Close * 1.03 ∧
        ((lastRow df.rows).Close > lastQ df.MA20 ∧ lastQ df.MA20 > lastQ df.MA60)) := by
  unfold detect_pocket_pivot
  rw [if_neg h]
  simp only [Bool.and_eq_true, decide_eq_true_eq]
  tauto

/-- A 50-row frame identical to the boundary frame except that the latest
    close is 104, strictly more than 3% above the prior close. -/
def pocket_pivot_fire_frame : IndicatorFrame :=
  { pocket_pivot_boundary_frame with
    rows := List.replicate 49 pp_row_base ++ [⟨104, 104, 104, 104, 1000⟩] }

/-- C6 witness: the amended characterization applied to a concrete firing
    frame (latest close 104, 4% above the prior close). -/
theorem detect_pocket_pivot_iff_witness :
    (detect_pocket_pivot pocket_pivot_fire_frame).1 = true := by
  refine (detect_pocket_pivot_iff pocket_pivot_fire_frame (by simp [pocket_pivot_fire_frame])).mpr
    ⟨?_, ?_, ?_, ?_⟩
  · rw [show pocket_pivot_fire_frame.rows =
      List.replicate 49 pp_row_base ++ [⟨104, 104, 104, 104, 1000⟩] from rfl, lastRow_concat]
    show (1000 : ℚ) > lastQ (List.replicate 50 145) * 1.5
    rw [show (50 : ℕ) = 49 + 1 from rfl, lastQ_replicate]
    norm_num
  · rw [show pocket_pivot_fire_frame.rows =
      List.replicate 49 pp_row_base ++ [⟨104, 104, 104, 104, 1000⟩] from rfl, lastRow_concat,
      show prevRow (List.replicate 49 pp_row_base ++ [⟨104, 104, 104, 104, 1000⟩]) = pp_row_base
        from prevRow_replicate_concat 48 _ _]
    show (104 : ℚ) > 100 * 1.03
    norm_num
  · rw [show pocket_pivot_fire_frame.rows =
      List.replicate 49 pp_row_base ++ [⟨104, 104, 104, 104, 1000⟩] from rfl, lastRow_concat]
    show (104 : ℚ) > lastQ (List.replicate 50 101)
    rw [show (50 : ℕ) = 49 + 1 from rfl, lastQ_replicate]
    norm_num
  · show lastQ (List.replicate 50 101) > lastQ (List.replicate 50 100)
    rw [show (50 : ℕ) = 49 + 1 from rfl, lastQ_replicate, lastQ_replicate]
    norm_num

theorem rollingMean_length (w : ℕ) (xs : List ℚ) : (rollingMean w xs).length = xs.length := by
  simp [rollingMean]

theorem rollingMax_length (w : ℕ) (xs : List ℚ) : (rollingMax w xs).length = xs.length := by
  simp [rollingMax]

theorem rollingMin_length (w : ℕ) (xs : List ℚ) : (rollingMin w xs).length = xs.length := by
  simp [rollingMin]

theorem rollingStd_length (sqrtFn : ℚ → ℚ) (w minp : ℕ) (xs : List ℚ) :
    (rollingStd sqrtFn w minp xs).length = xs.length := by
  simp [rollingStd]

theorem pctChange_length (n : ℕ) (xs : List ℚ) : (pctChange n xs).length = xs.length := by
  simp [pctChange]

theorem rsiGains_length (xs : List ℚ) : (rsiGains xs).length = xs.length := by
  simp [rsiGains]

theorem rsiLosses_length (xs : List ℚ) : (rsiLosses xs).length = xs.length := by
  simp [rsiLosses]

theorem ewmGo_length (α : ℚ) (p : ℚ) (xs : List ℚ) : (ewmGo α p xs).length = xs.length := by
  induction xs generalizing p with
  | nil => rfl
  | cons x t ih => simp [ewmGo, ih]

theorem ewmMean_length (s : ℕ) (xs : List ℚ) : (ewmMean s xs).length = xs.length := by
  cases xs with
  | nil => rfl
  | cons x t => simp [ewmMean, ewmGo_length]

/-- C8 (amended): calculate_indicators preserves the row count — every
    indicator column has exactly the input length, point-aligned, no rows
    truncated.  The rolling-mean/max/min-based columns (MAs, volume MAs,
    52-week extremes, MACD family) carry a value in every row thanks to
    the min_periods=1 floor, which their ℚ-valued (non-optional) column
    type expresses; the return-over-N, Bollinger-std and RSI columns are
    Option-valued and are absent (NaN) until enough history exists. -/
theorem calculate_indicators_length_preserved (sqrtFn : ℚ → ℚ) (rows : List PriceRow) :
    (calculate_indicators sqrtFn rows).rows.length = rows.length ∧
    (calculate_indicators sqrtFn rows).MA20.length = rows.length ∧
    (calculate_indicators sqrtFn rows).MA60.length = rows.length ∧
    (calculate_indicators sqrtFn rows).MA120.length = rows.length ∧
    (calculate_indicators sqrtFn rows).BB_Middle.length = rows.length ∧
    (calculate_indicators sqrtFn rows).BB_std.length = rows.length ∧
    (calculate_indicators sqrtFn rows).Upper_Band.length = rows.length ∧
    (calculate_indicators sqrtFn rows).Lower_Band.length = rows.length ∧
    (calculate_indicators sqrtFn rows).Volume_MA5.length = rows.length ∧
    (calculate_indicators sqrtFn rows).Volume_MA20.length = rows.length ∧
    (calculate_indicators sqrtFn rows).W52_High.length = rows.length ∧
    (calculate_indicators sqrtFn rows).W52_Low.length = rows.length ∧
    (calculate_indicators sqrtFn rows).Return_1D.length = rows.length ∧
    (calculate_indicators sqrtFn rows).Return_13W.length = rows.length ∧
    (calculate_indicators sqrtFn rows).Return_26W.length = rows.length ∧
    (calculate_indicators sqrtFn rows).RSI.length = rows.length ∧
    (calculate_indicators sqrtFn rows).MACD.length = rows.length ∧
    (calculate_indicators sqrtFn rows).MACD_Signal.length = rows.length ∧
    (calculate_indicators sqrtFn rows).MACD_Histogram.length = rows.length := by
  refine ⟨rfl, ?_, ?_, ?_, ?_, ?_, ?_, ?_, ?_, ?_, ?_, ?_, ?_, ?_, ?_, ?_, ?_, ?_, ?_⟩ <;>
    simp [calculate_indicators, rollingMean_length, rollingMax_length, rollingMin_length,
      rollingStd_length, pctChange_length, rsiGains_length, rsiLosses_length, ewmMean_length,
      List.length_zipWith, List.length_map]

/-- C8 counterexample: on a one-row series (one full period of history)
    the return columns, the RSI and the Bollinger std are all NaN — not
    every indicator emits a value as soon as one period of history exists,
    even though the row count is preserved. -/
theorem calculate_indicators_single_row_gaps :
    (calculate_indicators (fun q => q) [⟨1, 1, 1, 1, 1⟩]).rows.length = 1 ∧
    (calculate_indicators (fun q => q) [⟨1, 1, 1, 1, 1⟩]).Return_1D = [none] ∧
    (calculate_indicators (fun q => q) [⟨1, 1, 1, 1, 1⟩]).RSI = [none] ∧
    (calculate_indicators (fun q => q) [⟨1, 1, 1, 1, 1⟩]).BB_std = [none] := by
  have hr1 : List.range 1 = [0] := rfl
  refine ⟨rfl, ?_, ?_, ?_⟩
  · show pctChange 1 [(1 : ℚ)] = [none]
    unfold pctChange
    rw [show ([(1 : ℚ)].length) = 1 from rfl, hr1]
    simp
  · show List.zipWith rsiFromGainLoss (rollingMean 14 (rsiGains [(1 : ℚ)]))
      (rollingMean 14 (rsiLosses [(1 : ℚ)])) = [none]
    have hg : rsiGains [(1 : ℚ)] = [0] := by
      unfold rsiGains
      rw [show ([(1 : ℚ)].length) = 1 from rfl, hr1]
      simp
    have hl : rsiLosses [(1 : ℚ)] = [0] := by
      unfold rsiLosses
      rw [show ([(1 : ℚ)].length) = 1 from rfl, hr1]
      simp
    rw [hg, hl]
    have hm : rollingMean 14 [(0 : ℚ)] = [0] := by
      unfold rollingMean
      rw [show ([(0 : ℚ)].length) = 1 from rfl, hr1]
      simp [rollWindow, listMean]
    rw [hm]
    simp [rsiFromGainLoss]
  · show rollingStd (fun q => q) 20 1 [(1 : ℚ)] = [none]
    unfold rollingStd
    rw [show ([(1 : ℚ)].length) = 1 from rfl, hr1]
    simp [rollWindow]

theorem rollWindow_replicate (w n i : ℕ) (c : ℚ) (hi : i < n) :
    rollWindow w (List.replicate n c) i = List.replicate (min (i + 1) w) c := by
  unfold rollWindow
  rw [List.take_replicate, List.drop_replicate]
  congr 1
  omega

theorem listMean_replicate (m : ℕ) (c : ℚ) (hm : m ≠ 0) :
    listMean (List.replicate m c) = c := by
  unfold listMean
  rw [List.sum_replicate, List.length_replicate, nsmul_eq_mul]
  exact mul_div_cancel_left₀ c (Nat.cast_ne_zero.mpr hm)

theorem rollingMean_replicate (w n : ℕ) (c : ℚ) (hw : 1 ≤ w) :
    rollingMean w (List.replicate n c) = List.replicate n c := by
  unfold rollingMean
  rw [List.length_replicate]
  refine List.eq_replicate_iff.mpr ⟨by simp, fun b hb => ?_⟩
  obtain ⟨i, hi, rfl⟩ := List.mem_map.mp hb
  rw [rollWindow_replicate w n i c (List.mem_range.mp hi)]
  exact listMean_replicate _ _ (by omega)

theorem rsiGains_replicate (n : ℕ) (c : ℚ) :
    rsiGains (List.replicate n c) = List.replicate n 0 := by
  unfold rsiGains
  rw [List.length_replicate]
  refine List.eq_replicate_iff.mpr ⟨by simp, fun b hb => ?_⟩
  obtain ⟨i, hi, rfl⟩ := List.mem_map.mp hb
  have hin := List.mem_range.mp hi
  rcases Nat.eq_zero_or_pos i with h0 | hpos
  · simp [h0]
  · rw [if_neg (by omega)]
    rw [List.getD_eq_getElem?_getD, List.getD_eq_getElem?_getD,
      List.getElem?_replicate_of_lt hin, List.getElem?_replicate_of_lt (by omega : i - 1 < n)]
    simp

theorem rsiLosses_replicate (n : ℕ) (c : ℚ) :
    rsiLosses (List.replicate n c) = List.replicate n 0 := by
  unfold rsiLosses
  rw [List.length_replicate]
  refine List.eq_replicate_iff.mpr ⟨by simp, fun b hb => ?_⟩
  obtain ⟨i, hi, rfl⟩ := List.mem_map.mp hb
  have hin := List.mem_range.mp hi
  rcases Nat.eq_zero_or_pos i with h0 | hpos
  · simp [h0]
  · rw [if_neg (by omega)]
    rw [List.getD_eq_getElem?_getD, List.getD_eq_getElem?_getD,
      List.getElem?_replicate_of_lt hin, List.getElem?_replicate_of_lt (by omega : i - 1 < n)]
    simp

/-- On a constant price series both the average gain and the average loss
    are 0, so every RSI row is 0/0 = NaN. -/
theorem calculate_indicators_RSI_const (sqrtFn : ℚ → ℚ) (n : ℕ) (r : PriceRow) :
    (calculate_indicators sqrtFn (List.replicate n r)).RSI = List.replicate n none := by
  show List.zipWith rsiFromGainLoss
    (rollingMean 14 (rsiGains ((List.replicate n r).map PriceRow.Close)))
    (rollingMean 14 (rsiLosses ((List.replicate n r).map PriceRow.Close))) =
    List.replicate n none
  rw [List.map_replicate, rsiGains_replicate, rsiLosses_replicate,
    rollingMean_replicate 14 n 0 (by omega), List.zipWith_replicate']
  rw [show rsiFromGainLoss 0 0 = none by simp [rsiFromGainLoss]]

theorem lastRow_replicate (n : ℕ) (a : PriceRow) :
    lastRow (List.replicate (n + 1) a) = a := by
  rw [lastRow, getLast?_replicate_succ]
  rfl

/-- The 130-period constant-close series of the C4 scenario. -/
def const_close_row : PriceRow := ⟨10000, 10000, 10000, 10000, 1000⟩

/-- 130 rows with constant close 10000. -/
def const_close_rows : List PriceRow := List.replicate 130 const_close_row

/-- C4 counterexample: on the 130-period constant-close series the latest
    RSI is NaN (both average gain and average loss are 0, so rs = 0/0),
    not approximately 50 — in particular it is not 50. -/
theorem calculate_indicators_const_rsi_nan :
    (calculate_indicators (fun q => q) const_close_rows).RSI.getLast? = some none ∧
    (calculate_indicators (fun q => q) const_close_rows).RSI.getLast? ≠ some (some 50) := by
  have h : (calculate_indicators (fun q => q) const_close_rows).RSI =
      List.replicate 130 none := calculate_indicators_RSI_const (fun q => q) 130 const_close_row
  rw [h, show (130 : ℕ) = 129 + 1 from rfl, getLast?_replicate_succ]
  exact ⟨rfl, by simp⟩

set_option maxRecDepth 8000 in
/-- C4 (amended): on a 130-period constant-close series (close 10000) the
    moving averages MA20 = MA60 = MA120 = 10000 at the latest row and the
    trend score's MA-alignment component is 0 (no strict > holds), exactly
    as claimed — but the RSI is NaN (none), not ≈ 50, because average gain
    and loss are both zero and 0/0 is NaN. -/
theorem calculate_indicators_const_series (sqrtFn : ℚ → ℚ) :
    lastQ (calculate_indicators sqrtFn const_close_rows).MA20 = 10000 ∧
    lastQ (calculate_indicators sqrtFn const_close_rows).MA60 = 10000 ∧
    lastQ (calculate_indicators sqrtFn const_close_rows).MA120 = 10000 ∧
    (calculate_indicators sqrtFn const_close_rows).RSI.getLast? = some none ∧
    ma_alignment_score (calculate_indicators sqrtFn const_close_rows) = 0 := by
  have hcl : const_close_rows.map PriceRow.Close = List.replicate 130 10000 := by
    rw [show const_close_rows = List.replicate 130 const_close_row from rfl, List.map_replicate]
    rfl
  have hp20 : (calculate_indicators sqrtFn const_close_rows).MA20 =
      rollingMean 20 (const_close_rows.map PriceRow.Close) := rfl
  have hp60 : (calculate_indicators sqrtFn const_close_rows).MA60 =
      rollingMean 60 (const_close_rows.map PriceRow.Close) := rfl
  have hp120 : (calculate_indicators sqrtFn const_close_rows).MA120 =
      rollingMean 120 (const_close_rows.map PriceRow.Close) := rfl
  have hma20 : (calculate_indicators sqrtFn const_close_rows).MA20 = List.replicate 130 10000 := by
    rw [hp20, hcl]
    exact rollingMean_replicate 20 130 10000 (by omega)
  have hma60 : (calculate_indicators sqrtFn const_close_rows).MA60 = List.replicate 130 10000 := by
    rw [hp60, hcl]
    exact rollingMean_replicate 60 130 10000 (by omega)
  have hma120 : (calculate_indicators sqrtFn const_close_rows).MA120 = List.replicate 130 10000 := by
    rw [hp120, hcl]
    exact rollingMean_replicate 120 130 10000 (by omega)
  have hlast : lastQ (List.replicate 130 (10000 : ℚ)) = 10000 := by
    rw [show (130 : ℕ) = 129 + 1 from rfl, lastQ_replicate]
  refine ⟨by rw [hma20, hlast], by rw [hma60, hlast], by rw [hma120, hlast], ?_, ?_⟩
  · have h : (calculate_indicators sqrtFn const_close_rows).RSI = List.replicate 130 none :=
      calculate_indicators_RSI_const sqrtFn 130 const_close_row
    rw [h, show (130 : ℕ) = 129 + 1 from rfl, getLast?_replicate_succ]
  · unfold ma_alignment_score
    rw [hma20, hma60, hlast]
    have hclose : lastClose (calculate_indicators sqrtFn const_close_rows) = 10000 := by
      show (lastRow const_close_rows).Close = 10000
      rw [show const_close_rows = List.replicate (129 + 1) const_close_row from rfl,
        lastRow_replicate]
      rfl
    rw [hclose]
    norm_num

theorem ma_alignment_score_bounds (df : IndicatorFrame) :
    0 ≤ ma_alignment_score df ∧ ma_alignment_score df ≤ 6 := by
  unfold ma_alignment_score
  split_ifs <;> norm_num

theorem ma_trend_score_bounds (df : IndicatorFrame) :
    0 ≤ ma_trend_score df ∧ ma_trend_score df ≤ 6 := by
  unfold ma_trend_score
  split_ifs <;> norm_num

theorem long_trend_score_bounds (df : IndicatorFrame) :
    0 ≤ long_trend_score df ∧ long_trend_score df ≤ 6 := by
  unfold long_trend_score
  split_ifs <;> norm_num

theorem volume_base_score_bounds (r : ℚ) : 0 ≤ volume_base_score r ∧ volume_base_score r ≤ 7 := by
  unfold volume_base_score
  split_ifs <;> norm_num

theorem volume_score_bounds (df : IndicatorFrame) :
    0 ≤ volume_score df ∧ volume_score df ≤ 7 := by
  obtain ⟨hb0, hb7⟩ := volume_base_score_bounds (volume_ratio_20d df)
  unfold volume_score
  split_ifs
  · exact ⟨le_min (by linarith) (by norm_num), min_le_right _ _⟩
  · exact ⟨hb0, hb7⟩
  · norm_num

theorem calculate_trend_score_bounds (df : IndicatorFrame) :
    0 ≤ calculate_trend_score df ∧ calculate_trend_score df ≤ 25 := by
  unfold calculate_trend_score
  split_ifs with h
  · norm_num
  · obtain ⟨a0, a6⟩ := ma_alignment_score_bounds df
    obtain ⟨b0, b6⟩ := ma_trend_score_bounds df
    obtain ⟨c0, c6⟩ := long_trend_score_bounds df
    obtain ⟨d0, d7⟩ := volume_score_bounds df
    constructor
    · exact pyRound1_nonneg (by linarith)
    · have h25 := pyRound1_le (n := 25)
        (show ma_alignment_score df + ma_trend_score df + long_trend_score df +
          volume_score df ≤ ((25 : ℤ) : ℚ) by push_cast; linarith)
      exact_mod_cast h25

theorem calculate_pattern_score_bounds (v p b : Bool × List String) :
    0 ≤ calculate_pattern_score v p b ∧ calculate_pattern_score v p b ≤ 20 := by
  unfold calculate_pattern_score
  have h0 : (0 : ℚ) ≤ (if v.1 then (8 : ℚ) else 0) + (if p.1 then 7 else 0) +
      (if b.1 then 5 else 0) := by
    split_ifs <;> norm_num
  have h20 : (if v.1 then (8 : ℚ) else 0) + (if p.1 then 7 else 0) +
      (if b.1 then 5 else 0) ≤ ((20 : ℤ) : ℚ) := by
    split_ifs <;> norm_num
  refine ⟨pyRound1_nonneg h0, ?_⟩
  have := pyRound1_le h20
  exact_mod_cast this

theorem rs_half_score_bounds (a b : Option ℚ) (scale : ℚ) :
    0 ≤ rs_half_score a b scale ∧ rs_half_score a b scale ≤ 12.5 := by
  cases a with
  | none => cases b <;> simp [rs_half_score] <;> norm_num
  | some s =>
    cases b with
    | none => simp [rs_half_score]; norm_num
    | some m =>
      show 0 ≤ min (max ((s - m) / scale) 0) 1 * 12.5 ∧
        min (max ((s - m) / scale) 0) 1 * 12.5 ≤ 12.5
      have hlo : (0 : ℚ) ≤ min (max ((s - m) / scale) 0) 1 :=
        le_min (le_max_right _ 0) zero_le_one
      have hhi : min (max ((s - m) / scale) 0) 1 ≤ 1 := min_le_right _ _
      constructor <;> nlinarith

theorem calculate_rs_score_bounds (s m : IndicatorFrame) :
    0 ≤ calculate_rs_score s m ∧ calculate_rs_score s m ≤ 25 := by
  unfold calculate_rs_score
  split_ifs with h
  · norm_num
  · obtain ⟨a0, a1⟩ := rs_half_score_bounds (s.Return_13W.getLast?.getD none)
      (m.Return_13W.getLast?.getD none) 0.2
    obtain ⟨b0, b1⟩ := rs_half_score_bounds (s.Return_26W.getLast?.getD none)
      (m.Return_26W.getLast?.getD none) 0.3
    constructor
    · exact pyRound1_nonneg (by linarith)
    · have hle : rs_half_score (s.Return_13W.getLast?.getD none)
          (m.Return_13W.getLast?.getD none) 0.2 +
          rs_half_score (s.Return_26W.getLast?.getD none)
            (m.Return_26W.getLast?.getD none) 0.3 ≤ ((25 : ℤ) : ℚ) := by
        push_cast
        linarith
      have := pyRound1_le hle
      exact_mod_cast this

theorem roe_score12_bounds (r : ℚ) : 0 ≤ roe_score12 r ∧ roe_score12 r ≤ 12 := by
  unfold roe_score12
  refine ⟨le_min ?_ (by norm_num), min_le_right _ _⟩
  split_ifs <;> linarith

theorem per_score9_bounds (x : ℚ) : 0 ≤ per_score9 x ∧ per_score9 x ≤ 9 := by
  unfold per_score9
  split_ifs <;> norm_num

theorem pbr_score9_bounds (x : ℚ) : 0 ≤ pbr_score9 x ∧ pbr_score9 x ≤ 9 := by
  unfold pbr_score9
  split_ifs <;> norm_num

theorem roe_score8_bounds (r : ℚ) : 0 ≤ roe_score8 r ∧ roe_score8 r ≤ 8 := by
  unfold roe_score8
  refine ⟨le_min ?_ (by norm_num), min_le_right _ _⟩
  split_ifs <;> linarith

theorem op_margin_score7_bounds (x : ℚ) : 0 ≤ op_margin_score7 x ∧ op_margin_score7 x ≤ 7 := by
  unfold op_margin_score7
  refine ⟨le_min ?_ (by norm_num), min_le_right _ _⟩
  split_ifs <;> linarith

theorem revenue_growth_score7_bounds (x : ℚ) :
    0 ≤ revenue_growth_score7 x ∧ revenue_growth_score7 x ≤ 7 := by
  unfold revenue_growth_score7
  refine ⟨le_min ?_ (by norm_num), min_le_right _ _⟩
  split_ifs <;> linarith

theorem op_growth_score6_bounds (x : ℚ) : 0 ≤ op_growth_score6 x ∧ op_growth_score6 x ≤ 6 := by
  unfold op_growth_score6
  refine ⟨le_min ?_ (by norm_num), min_le_right _ _⟩
  split_ifs <;> linarith

theorem debt_score2_bounds (x : ℚ) : 0 ≤ debt_score2 x ∧ debt_score2 x ≤ 2 := by
  unfold debt_score2
  split_ifs <;> norm_num

theorem sales_yoy_score5_bounds (x : ℚ) : 0 ≤ sales_yoy_score5 x ∧ sales_yoy_score5 x ≤ 5 := by
  unfold sales_yoy_score5
  split_ifs <;> constructor <;> linarith

theorem sales_qoq_score2_bounds (x : ℚ) : 0 ≤ sales_qoq_score2 x ∧ sales_qoq_score2 x ≤ 2 := by
  unfold sales_qoq_score2
  split_ifs <;> constructor <;> linarith

theorem op_yoy_score4_bounds (x : ℚ) : 0 ≤ op_yoy_score4 x ∧ op_yoy_score4 x ≤ 4 := by
  unfold op_yoy_score4
  split_ifs <;> constructor <;> linarith

theorem op_qoq_score2_bounds (x : ℚ) : 0 ≤ op_qoq_score2 x ∧ op_qoq_score2 x ≤ 2 := by
  unfold op_qoq_score2
  split_ifs <;> constructor <;> linarith

theorem per_score12_bounds (x : ℚ) : 0 ≤ per_score12 x ∧ per_score12 x ≤ 12 := by
  unfold per_score12
  split_ifs <;> norm_num

theorem pbr_score12_bounds (x : ℚ) : 0 ≤ pbr_score12 x ∧ pbr_score12 x ≤ 12 := by
  unfold pbr_score12
  split_ifs <;> norm_num

theorem div_score6_bounds (x : ℚ) : 0 ≤ div_score6 x ∧ div_score6 x ≤ 6 := by
  unfold div_score6
  split_ifs <;> constructor <;> linarith

theorem calculate_fundamental_score_bounds (fd : Option FinDict) :
    0 ≤ (calculate_fundamental_score fd).1 ∧ (calculate_fundamental_score fd).1 ≤ 30 := by
  cases fd with
  | none => norm_num [calculate_fundamental_score]
  | some d =>
    refine ⟨le_min (pyRound1_nonneg ?_) (by norm_num), min_le_right _ _⟩
    split_ifs
    · obtain ⟨h1, _⟩ := roe_score12_bounds (d.roe.getD 0)
      obtain ⟨h2, _⟩ := per_score9_bounds (d.per.getD 0)
      obtain ⟨h3, _⟩ := pbr_score9_bounds (d.pbr.getD 0)
      linarith
    · obtain ⟨h1, _⟩ := roe_score8_bounds (d.roe.getD 0)
      obtain ⟨h2, _⟩ := op_margin_score7_bounds (d.operating_margin.getD 0)
      obtain ⟨h3, _⟩ := revenue_growth_score7_bounds (d.revenue_yoy.getD 0)
      obtain ⟨h4, _⟩ := op_growth_score6_bounds (d.operating_profit_yoy.getD 0)
      obtain ⟨h5, _⟩ := debt_score2_bounds (d.debt_ratio.getD 0)
      linarith
    · obtain ⟨h1, _⟩ := roe_score8_bounds (d.roe.getD 0)
      obtain ⟨h2, _⟩ := op_margin_score7_bounds (d.operating_margin.getD 0)
      obtain ⟨h3, _⟩ := sales_yoy_score5_bounds (d.sales_yoy.getD 0)
      obtain ⟨h4, _⟩ := sales_qoq_score2_bounds (d.sales_qoq.getD 0)
      obtain ⟨h5, _⟩ := op_yoy_score4_bounds (d.op_income_yoy.getD 0)
      obtain ⟨h6, _⟩ := op_qoq_score2_bounds (d.op_income_qoq.getD 0)
      obtain ⟨h7, _⟩ := debt_score2_bounds (d.debt_ratio.getD 0)
      have hm1 : (0 : ℚ) ≤ min (sales_yoy_score5 (d.sales_yoy.getD 0) +
          sales_qoq_score2 (d.sales_qoq.getD 0)) 7 := le_min (by linarith) (by norm_num)
      have hm2 : (0 : ℚ) ≤ min (op_yoy_score4 (d.op_income_yoy.getD 0) +
          op_qoq_score2 (d.op_income_qoq.getD 0)) 6 := le_min (by linarith) (by norm_num)
      linarith
    · norm_num
    · obtain ⟨h1, _⟩ := per_score12_bounds (d.per.getD 0)
      obtain ⟨h2, _⟩ := pbr_score12_bounds (d.pbr.getD 0)
      obtain ⟨h3, _⟩ := div_score6_bounds (d.dividend_yield.getD 0)
      linarith
    · norm_num

theorem calculate_investor_score_bounds (iv : Option InvestorDict) :
    0 ≤ calculate_investor_score iv ∧ calculate_investor_score iv ≤ 12 := by
  cases iv with
  | none => norm_num [calculate_investor_score]
  | some d =>
    show 0 ≤ (if d.data_source.getD "unknown" = "default" then 0
      else min (pyRound1 (investor_foreign_pts d + investor_institution_pts d +
        investor_consecutive_pts d + investor_short_pts d)) 12) ∧
      (if d.data_source.getD "unknown" = "default" then 0
      else min (pyRound1 (investor_foreign_pts d + investor_institution_pts d +
        investor_consecutive_pts d + investor_short_pts d)) 12) ≤ 12
    split_ifs
    · norm_num
    · refine ⟨le_min (pyRound1_nonneg ?_) (by norm_num), min_le_right _ _⟩
      have h1 := investor_foreign_pts_nonneg d
      have h2 := investor_institution_pts_nonneg d
      have h3 := investor_consecutive_pts_nonneg d
      have h4 := investor_short_pts_nonneg d
      linarith

/-- C9: every sub-score function is bounded below by 0 and above by its
    stated maximum for every input: trend in [0,25], pattern in [0,20],
    relative strength in [0,25], fundamental in [0,30] and investor flow
    in [0,12]. -/
theorem sub_score_bounds :
    (∀ df : IndicatorFrame, 0 ≤ calculate_trend_score df ∧ calculate_trend_score df ≤ 25) ∧
    (∀ v p b : Bool × List String,
      0 ≤ calculate_pattern_score v p b ∧ calculate_pattern_score v p b ≤ 20) ∧
    (∀ s m : IndicatorFrame, 0 ≤ calculate_rs_score s m ∧ calculate_rs_score s m ≤ 25) ∧
    (∀ fd : Option FinDict,
      0 ≤ (calculate_fundamental_score fd).1 ∧ (calculate_fundamental_score fd).1 ≤ 30) ∧
    (∀ iv : Option InvestorDict,
      0 ≤ calculate_investor_score iv ∧ calculate_investor_score iv ≤ 12) :=
  ⟨calculate_trend_score_bounds, calculate_pattern_score_bounds, calculate_rs_score_bounds,
    calculate_fundamental_score_bounds, calculate_investor_score_bounds⟩

end Screener
